import Mathlib

/-
Verification of the configuration-parsing core of picom (src/config.h).

The shallow embedding below translates the parsers and data model of
src/config.h into Lean. Types and functions whose full code is in
src/config.h (parse_backend, parse_vsync, parse_kawase_blur_strength, the
structs win_option_mask_t, win_option_t, blur_strength_t, enum backend) are
translated directly from the source. Functions that src/config.h only
declares (set_default_winopts, condlst_add, parse_rule_opacity,
parse_config, parse_config_libconfig and the BACKEND_STRS table live in a
.c file that is not part of src/) are modelled from the specification; each
such definition carries a doc comment starting with "Modelled from the
spec:".

C machine integers are modelled as Int (no arithmetic here ever wraps: the
only integer inputs are compared against small constants), C doubles and
floats as rationals (the decimal literals of the source are exact in Rat;
no claim depends on float rounding), and C strings as Lean String. Logging
calls are modelled by a Diag tag returned next to the value.
-/

namespace Picom

/-- Diagnostic channel used by a parser call: the source logs nothing,
an info line, a deprecation warning (log_warn) or an error (log_error). -/
inductive Diag
  | quiet
  | info
  | warn
  | error
deriving DecidableEq

/-- ASCII case folding of a string, one character at a time; model of the
per-character tolower used by strcasecmp. -/
def strLower (s : String) : String := ⟨s.data.map Char.toLower⟩

/-- Case-insensitive string equality: model of strcasecmp(a, b) == 0. -/
def strcaseeq (a b : String) : Bool := strLower a == strLower b

/-- Value of enum backend BKEND_XRENDER (C enums are integers). -/
def BKEND_XRENDER : Nat := 0

/-- Value of enum backend BKEND_GLX. -/
def BKEND_GLX : Nat := 1

/-- Value of enum backend BKEND_XR_GLX_HYBRID. -/
def BKEND_XR_GLX_HYBRID : Nat := 2

/-- Value of enum backend BKEND_DUMMY. -/
def BKEND_DUMMY : Nat := 3

/-- Value of enum backend NUM_BKEND, the invalid sentinel returned by
parse_backend on no match. -/
def NUM_BKEND : Nat := 4

/-- Modelled from the spec: BACKEND_STRS, the ordered null-terminated table
of canonical backend names indexed by enum backend. src/config.h only
declares it (extern const char *const BACKEND_STRS[NUM_BKEND + 1]); its
initializer lives in a .c file that is not in src/. The spec fixes it as an
ordered, null-terminated list of canonical backend names indexed by the
backend enum; the names follow the enum constants and the warning text in
parse_backend ("xr_glx_hybird should be xr_glx_hybrid"). The terminating
NULL is modelled by the end of the list. -/
def BACKEND_STRS : List String := ["xrender", "glx", "xr_glx_hybrid", "dummy"]

/-- The search loop of parse_backend: for (enum backend i = 0;
BACKEND_STRS[i]; ++i) if (!strcasecmp(str, BACKEND_STRS[i])) return i. -/
def backend_search (str : String) : List String → Nat → Option Nat
  | [], _ => none
  | s :: rest, i => if strcaseeq str s then some i else backend_search str rest (i + 1)

/-- parse_backend from src/config.h: case-insensitive match against
BACKEND_STRS, then the two legacy misspellings (returning
BKEND_XR_GLX_HYBRID with a log_warn), else NUM_BKEND with a log_error. -/
def parse_backend (str : String) : Nat × Diag :=
  match backend_search str BACKEND_STRS 0 with
  | some i => (i, Diag.quiet)
  | none =>
    if strcaseeq str "xr_glx_hybird" then (BKEND_XR_GLX_HYBRID, Diag.warn)
    else if strcaseeq str "xr-glx-hybrid" then (BKEND_XR_GLX_HYBRID, Diag.warn)
    else (NUM_BKEND, Diag.error)

/-- parse_vsync from src/config.h: false exactly when the input is one of
the four negative tokens under case-sensitive strcmp, true otherwise. -/
def parse_vsync (str : String) : Bool :=
  if str == "no" || str == "none" || str == "false" || str == "nah" then false else true

/-- struct blur_strength from src/config.h. The C float offset is modelled
as the exact rational value of the source's decimal literal. -/
structure blur_strength_t where
  expand : Int
  strength : Int
  iterations : Int
  offset : ℚ
deriving DecidableEq, Inhabited

/-- The static values[20] table inside parse_kawase_blur_strength,
transcribed entry by entry from src/config.h. -/
def blur_strength_values : List blur_strength_t :=
  [ ⟨10, 1, 1, 1.5⟩, ⟨10, 2, 1, 2.0⟩, ⟨20, 3, 2, 2.5⟩, ⟨20, 4, 2, 3.0⟩,
    ⟨50, 5, 3, 2.75⟩, ⟨50, 6, 3, 3.5⟩, ⟨50, 7, 3, 4.25⟩, ⟨50, 8, 3, 5.0⟩,
    ⟨150, 9, 4, 3.71429⟩, ⟨150, 10, 4, 4.42857⟩, ⟨150, 11, 4, 5.14286⟩,
    ⟨150, 12, 4, 5.85714⟩, ⟨150, 13, 4, 6.57143⟩, ⟨150, 14, 4, 7.28571⟩,
    ⟨150, 15, 4, 8.0⟩, ⟨400, 16, 5, 6.0⟩, ⟨400, 17, 5, 7.0⟩, ⟨400, 18, 5, 8.0⟩,
    ⟨400, 19, 5, 9.0⟩, ⟨400, 20, 5, 10.0⟩ ]

/-- parse_kawase_blur_strength from src/config.h: out of [1,20] it logs an
error and returns values[5]; otherwise it logs an info line and returns
values[level - 1]. -/
def parse_kawase_blur_strength (level : Int) : blur_strength_t × Diag :=
  if level < 1 ∨ 20 < level then (blur_strength_values.getD 5 default, Diag.error)
  else (blur_strength_values.getD ((level - 1).toNat) default, Diag.info)

/-- The array index parse_kawase_blur_strength reads: 5 on the error branch,
level - 1 otherwise. -/
def kawase_index (level : Int) : Nat :=
  if level < 1 ∨ 20 < level then 5 else (level - 1).toNat

/-- struct win_option_mask from src/config.h: one presence bit per
overridable per-window-type field. -/
structure win_option_mask where
  shadow : Bool
  fade : Bool
  focus : Bool
  full_shadow : Bool
  redir_ignore : Bool
  opacity : Bool
  corner_radius : Bool
  round_borders : Bool
deriving DecidableEq, Inhabited

/-- struct win_option from src/config.h: the per-window-type overrides. -/
structure win_option where
  shadow : Bool
  fade : Bool
  focus : Bool
  full_shadow : Bool
  redir_ignore : Bool
  opacity : ℚ
  corner_radius : Int
  round_borders : Int
deriving DecidableEq, Inhabited

/-- Modelled from the spec: the fixed "no override" sentinel assigned to a
per-type opacity whose mask bit is unset. The value assigned by
set_default_winopts lives in a .c file that is not in src/; the spec only
fixes that it is a fixed sentinel meaning "no override" (hence outside the
valid opacity range [0,1]). -/
def OPACITY_UNSET : ℚ := -1

/-- Modelled from the spec: the fixed "no override" sentinel for a per-type
corner radius whose mask bit is unset (see OPACITY_UNSET). -/
def CORNER_RADIUS_UNSET : Int := -1

/-- Modelled from the spec: the fixed "no override" sentinel for a per-type
round-borders override whose mask bit is unset (see OPACITY_UNSET). -/
def ROUND_BORDERS_UNSET : Int := -1

/-- Modelled from the spec: the per-window-type body of set_default_winopts,
whose definition is in a .c file not in src/. For every overridable field,
if the mask bit is set the existing value is left untouched; if unset the
field is assigned the computed default: shadow and fade take the global
gates, focus / full_shadow / redir_ignore take false, and the numeric
overrides take their fixed "no override" sentinels. -/
def resolve_winopt (shadow_enable fading_enable : Bool) (m : win_option_mask)
    (w : win_option) : win_option where
  shadow := if m.shadow then w.shadow else shadow_enable
  fade := if m.fade then w.fade else fading_enable
  focus := if m.focus then w.focus else false
  full_shadow := if m.full_shadow then w.full_shadow else false
  redir_ignore := if m.redir_ignore then w.redir_ignore else false
  opacity := if m.opacity then w.opacity else OPACITY_UNSET
  corner_radius := if m.corner_radius then w.corner_radius else CORNER_RADIUS_UNSET
  round_borders := if m.round_borders then w.round_borders else ROUND_BORDERS_UNSET

/-- Modelled from the spec: set_default_winopts(opt, mask, shadow_enable,
fading_enable), declared in src/config.h but defined in a .c file not in
src/. It resolves the wintype_option array of the options record against
the parallel mask array; the arrays (indexed by window type) are modelled
as lists of equal length NUM_WINTYPES. -/
def set_default_winopts (wintype_option : List win_option)
    (mask : List win_option_mask) (shadow_enable fading_enable : Bool) : List win_option :=
  List.zipWith (resolve_winopt shadow_enable fading_enable) mask wintype_option

/-- One node of a condition linked list (c2_lptr_t chain): the pattern it
was parsed from and, for opacity rules, the attached opacity value. The
pattern representation is opaque to this core; it is modelled by the
accepted pattern string. -/
structure cond_node where
  pat : String
  val : Option ℚ
deriving DecidableEq

/-- Modelled from the spec: condlst_add(pcondlst, pattern), declared in
src/config.h but defined in a .c file not in src/. It parses the pattern
with the external predicate grammar (passed here as the opaque function
c2_parse, returning none on a grammar error) and on success appends one
node to the list; on failure it returns false and leaves the list
unchanged. Insertion order is first-parsed-first. -/
def condlst_add (c2_parse : String → Option String) (lst : List cond_node)
    (pat : String) : List cond_node × Bool :=
  match c2_parse pat with
  | none => (lst, false)
  | some p => (lst ++ [⟨p, none⟩], true)

/-- N consecutive condlst_add calls, keeping only the resulting list. -/
def condlst_add_all (c2_parse : String → Option String) (lst : List cond_node)
    (pats : List String) : List cond_node :=
  pats.foldl (fun l p => (condlst_add c2_parse l p).1) lst

/-- Splits a character list at its first colon, dropping the colon:
the scan for the pattern/opacity separator of an opacity rule. -/
def break_colon : List Char → Option (List Char × List Char)
  | [] => none
  | c :: rest =>
    if c = ':' then some ([], rest)
    else (break_colon rest).map (fun p => (c :: p.1, p.2))

/-- Modelled from the spec: parse_rule_opacity(res, src), declared in
src/config.h but defined in a .c file not in src/. It accepts a combined
"pattern : opacity" input, parses both parts (the pattern with the external
grammar c2_parse, the opacity with the value parser parse_op), and stores
pattern plus attached value in one node on success; on a parse failure in
either part it returns false and leaves the list unchanged. -/
def parse_rule_opacity (c2_parse : String → Option String)
    (parse_op : String → Option ℚ) (lst : List cond_node) (src : String) :
    List cond_node × Bool :=
  match break_colon src.data with
  | none => (lst, false)
  | some (p1, p2) =>
    match c2_parse ⟨p1⟩, parse_op ⟨p2⟩ with
    | some p, some o => (lst ++ [⟨p, some o⟩], true)
    | _, _ => (lst, false)

/-- Modelled from the spec: one recognized key of a configuration file
together with the outcome of parsing its raw value: some v when the value
parsed, none when it was malformed or out of range. Fields are identified
by their position in the options record and field values by an integer
code, enough to express which fields change and to what. -/
structure config_entry where
  key : Nat
  val : Option Int
deriving DecidableEq

/-- Modelled from the spec: how parse_config_libconfig treats one key of
the file: a field-level parse failure is logged and the field keeps its
prior value; a parsed value overwrites the field. -/
def apply_config_entry (st : Nat → Int) (e : config_entry) : Nat → Int :=
  match e.val with
  | none => st
  | some v => Function.update st e.key v

/-- Modelled from the spec: parse_config_libconfig, declared in
src/config.h (under CONFIG_LIBCONFIG) but defined in a .c file not in
src/: it applies the file's recognized keys in order to the options
snapshot, each key independently recoverable. -/
def parse_config_libconfig (st : Nat → Int) (entries : List config_entry) : Nat → Int :=
  entries.foldl apply_config_entry st

/-- Modelled from the spec: parse_config, declared in src/config.h but
defined in a .c file not in src/: when the file-backed format is compiled
in it parses the file and returns the resolved path actually used; when
unavailable in the build it is a no-op returning null (modelled by the
libconfig flag and an Option path). -/
def parse_config (libconfig : Bool) (st : Nat → Int) (config_file : Option String)
    (entries : List config_entry) : (Nat → Int) × Option String :=
  if libconfig then (parse_config_libconfig st entries, config_file) else (st, none)

/-- A mask with every presence bit set, for concrete evaluations. -/
def mask_all : win_option_mask := ⟨true, true, true, true, true, true, true, true⟩

/-- A concrete per-type override record with opacity 1/2, for concrete
evaluations. -/
def wopt_demo : win_option := ⟨true, false, true, false, true, 1/2, 7, 3⟩

/-- A concrete predicate grammar for concrete evaluations: rejects exactly
the pattern "bad". -/
def c2_demo : String → Option String := fun s => if s = "bad" then none else some s

/-- A concrete opacity value parser for concrete evaluations: accepts
exactly "0.5". -/
def pop_demo : String → Option ℚ := fun s => if s = "0.5" then some (1/2) else none

/-- A concrete prior options snapshot, every field 0. -/
def st_zero : Nat → Int := fun _ => 0

theorem strcaseeq_iff (a b : String) : strcaseeq a b = true ↔ strLower a = strLower b := by
  simp [strcaseeq]

theorem strcaseeq_congr (a b : String) (h : strLower a = strLower b) (c : String) :
    strcaseeq a c = strcaseeq b c := by
  simp [strcaseeq, h]

theorem backend_search_lt (s : String) :
    ∀ (l : List String) (i j : Nat), backend_search s l i = some j → j < i + l.length := by
  intro l
  induction l with
  | nil => intro i j h; simp [backend_search] at h
  | cons c rest ih =>
    intro i j h
    rw [backend_search] at h
    by_cases hc : strcaseeq s c = true
    · rw [if_pos hc] at h
      simp only [Option.some.injEq] at h
      simp [← h]
    · rw [if_neg hc] at h
      have := ih (i + 1) j h
      simp only [List.length_cons]
      omega

theorem resolve_winopt_idem (se fe : Bool) (m : win_option_mask) (w : win_option) :
    resolve_winopt se fe m (resolve_winopt se fe m w) = resolve_winopt se fe m w := by
  simp only [resolve_winopt, win_option.mk.injEq]
  refine ⟨?_, ?_, ?_, ?_, ?_, ?_, ?_, ?_⟩ <;> split <;> simp [*]

theorem resolve_winopt_cases (se fe : Bool) (m : win_option_mask) (w : win_option) :
    (m.shadow = true → (resolve_winopt se fe m w).shadow = w.shadow) ∧
    (m.shadow = false → (resolve_winopt se fe m w).shadow = se) ∧
    (m.fade = true → (resolve_winopt se fe m w).fade = w.fade) ∧
    (m.fade = false → (resolve_winopt se fe m w).fade = fe) ∧
    (m.focus = true → (resolve_winopt se fe m w).focus = w.focus) ∧
    (m.focus = false → (resolve_winopt se fe m w).focus = false) ∧
    (m.full_shadow = true → (resolve_winopt se fe m w).full_shadow = w.full_shadow) ∧
    (m.full_shadow = false → (resolve_winopt se fe m w).full_shadow = false) ∧
    (m.redir_ignore = true → (resolve_winopt se fe m w).redir_ignore = w.redir_ignore) ∧
    (m.redir_ignore = false → (resolve_winopt se fe m w).redir_ignore = false) ∧
    (m.opacity = true → (resolve_winopt se fe m w).opacity = w.opacity) ∧
    (m.opacity = false → (resolve_winopt se fe m w).opacity = OPACITY_UNSET) ∧
    (m.corner_radius = true → (resolve_winopt se fe m w).corner_radius = w.corner_radius) ∧
    (m.corner_radius = false → (resolve_winopt se fe m w).corner_radius = CORNER_RADIUS_UNSET) ∧
    (m.round_borders = true → (resolve_winopt se fe m w).round_borders = w.round_borders) ∧
    (m.round_borders = false → (resolve_winopt se fe m w).round_borders = ROUND_BORDERS_UNSET) := by
  refine ⟨?_, ?_, ?_, ?_, ?_, ?_, ?_, ?_, ?_, ?_, ?_, ?_, ?_, ?_, ?_, ?_⟩ <;>
    intro h <;> simp [resolve_winopt, h]

theorem resolve_winopt_masked (se fe : Bool) (m : win_option_mask) (w : win_option) :
    (m.shadow = true → (resolve_winopt se fe m w).shadow = w.shadow) ∧
    (m.fade = true → (resolve_winopt se fe m w).fade = w.fade) ∧
    (m.focus = true → (resolve_winopt se fe m w).focus = w.focus) ∧
    (m.full_shadow = true → (resolve_winopt se fe m w).full_shadow = w.full_shadow) ∧
    (m.redir_ignore = true → (resolve_winopt se fe m w).redir_ignore = w.redir_ignore) ∧
    (m.opacity = true → (resolve_winopt se fe m w).opacity = w.opacity) ∧
    (m.corner_radius = true → (resolve_winopt se fe m w).corner_radius = w.corner_radius) ∧
    (m.round_borders = true → (resolve_winopt se fe m w).round_borders = w.round_borders) := by
  refine ⟨?_, ?_, ?_, ?_, ?_, ?_, ?_, ?_⟩ <;> intro h <;> simp [resolve_winopt, h]

theorem set_default_winopts_getD (se fe : Bool) :
    ∀ (mask : List win_option_mask) (opts : List win_option) (i : Nat),
      i < mask.length → i < opts.length →
      (set_default_winopts opts mask se fe).getD i default =
        resolve_winopt se fe (mask.getD i default) (opts.getD i default) := by
  intro mask
  induction mask with
  | nil => intro opts i h1 h2; simp at h1
  | cons m rest ih =>
    intro opts i h1 h2
    cases opts with
    | nil => simp at h2
    | cons w ws =>
      cases i with
      | zero => simp [set_default_winopts]
      | succ n =>
        simp only [set_default_winopts, List.zipWith_cons_cons, List.getD_cons_succ]
        exact ih ws n (by simpa using h1) (by simpa using h2)

theorem set_default_winopts_idem_aux (se fe : Bool) :
    ∀ (mask : List win_option_mask) (opts : List win_option),
      set_default_winopts (set_default_winopts opts mask se fe) mask se fe =
        set_default_winopts opts mask se fe := by
  intro mask
  induction mask with
  | nil => intro opts; simp [set_default_winopts]
  | cons m rest ih =>
    intro opts
    cases opts with
    | nil => simp [set_default_winopts]
    | cons w ws =>
      have h2 := ih ws
      simp only [set_default_winopts] at h2 ⊢
      simp only [List.zipWith_cons_cons, resolve_winopt_idem, h2]

theorem foldl_apply_config_ne (k : Nat) :
    ∀ (entries : List config_entry) (st : Nat → Int),
      (∀ e ∈ entries, e.key ≠ k) → parse_config_libconfig st entries k = st k := by
  intro entries
  induction entries with
  | nil => intro st _; rfl
  | cons e rest ih =>
    intro st h
    rw [parse_config_libconfig, List.foldl_cons]
    have hrest := ih (apply_config_entry st e) (fun x hx => h x (by simp [hx]))
    rw [parse_config_libconfig] at hrest
    rw [hrest]
    rcases he : e.val with _ | v
    · simp [apply_config_entry, he]
    · simp [apply_config_entry, he, Function.update]
      intro hk
      exact absurd hk.symm (h e (by simp))

/-- Claim C2: for every level in [1,20] parse_kawase_blur_strength returns
the table entry at index level - 1 with an info line, the 20 tabulated
tuples are pairwise distinct, and for every level outside [1,20] it returns
the table entry at index 5 with an error diagnostic; that entry is the
level-6 tuple (50, 6, 3, 3.5), not a boundary entry. -/
theorem parse_kawase_blur_strength_lookup :
    (∀ level : Int, 1 ≤ level → level ≤ 20 →
      parse_kawase_blur_strength level =
        (blur_strength_values.getD ((level - 1).toNat) default, Diag.info)) ∧
    blur_strength_values.Nodup ∧
    blur_strength_values.length = 20 ∧
    (∀ level : Int, level < 1 ∨ 20 < level →
      parse_kawase_blur_strength level = (blur_strength_values.getD 5 default, Diag.error)) ∧
    blur_strength_values.getD 5 default = ⟨50, 6, 3, 3.5⟩ := by
  refine ⟨?_, ?_, by decide, ?_, rfl⟩
  · intro level ha hb
    rw [parse_kawase_blur_strength, if_neg (by omega)]
  · have h : (blur_strength_values.map blur_strength_t.strength).Nodup := by decide
    exact h.of_map
  · intro level h
    rw [parse_kawase_blur_strength, if_pos h]

/-- Witness for C2: level 3 takes table index 2 with an info line, level 21
takes table index 5 with an error. -/
theorem parse_kawase_blur_strength_lookup_witness :
    parse_kawase_blur_strength 3 =
      (blur_strength_values.getD (((3 : Int) - 1).toNat) default, Diag.info) ∧
    parse_kawase_blur_strength 21 = (blur_strength_values.getD 5 default, Diag.error) :=
  ⟨parse_kawase_blur_strength_lookup.1 3 (by decide) (by decide),
   parse_kawase_blur_strength_lookup.2.2.2.1 21 (by decide)⟩

/-- Claim C8: parse_kawase_blur_strength is total over machine integers:
for every level the table index read is below 20, the error branch with
index 5 fires exactly on the complement of [1,20], the result is always one
of the 20 table entries, and the extremes of a 32-bit int take the error
branch. -/
theorem parse_kawase_blur_strength_total :
    (∀ level : Int,
      kawase_index level < 20 ∧
      parse_kawase_blur_strength level =
        (blur_strength_values.getD (kawase_index level) default,
          if level < 1 ∨ 20 < level then Diag.error else Diag.info) ∧
      ((parse_kawase_blur_strength level).2 = Diag.error ↔ (level < 1 ∨ 20 < level)) ∧
      (parse_kawase_blur_strength level).1 ∈ blur_strength_values) ∧
    (parse_kawase_blur_strength (-2147483648)).2 = Diag.error ∧
    (parse_kawase_blur_strength 2147483647).2 = Diag.error := by
  refine ⟨?_, by decide, by decide⟩
  intro level
  by_cases h : level < 1 ∨ 20 < level
  · refine ⟨by simp [kawase_index, h], ?_, ?_, ?_⟩
    · simp only [parse_kawase_blur_strength, kawase_index, if_pos h]
    · rw [parse_kawase_blur_strength, if_pos h]
      exact iff_of_true rfl h
    · rw [parse_kawase_blur_strength, if_pos h]
      rw [List.getD_eq_getElem _ _ (by decide)]
      exact List.getElem_mem _
  · have hb : (level - 1).toNat < 20 := by omega
    refine ⟨?_, ?_, ?_, ?_⟩
    · simpa [kawase_index, h] using hb
    · simp only [parse_kawase_blur_strength, kawase_index, if_neg h]
    · rw [parse_kawase_blur_strength, if_neg h]
      exact iff_of_false (by simp) h
    · rw [parse_kawase_blur_strength, if_neg h]
      rw [List.getD_eq_getElem _ _ (by simpa using hb)]
      exact List.getElem_mem _

/-- Claim C9: for every level in [1,20] the strength field of the returned
tuple equals the level itself, and the expand and iterations fields are
monotonically nondecreasing in the level. -/
theorem blur_strength_table_monotone (l1 l2 : Int)
    (ha : 1 ≤ l1) (hb : l1 ≤ l2) (hc : l2 ≤ 20) :
    (parse_kawase_blur_strength l1).1.strength = l1 ∧
    (parse_kawase_blur_strength l1).1.expand ≤ (parse_kawase_blur_strength l2).1.expand ∧
    (parse_kawase_blur_strength l1).1.iterations ≤ (parse_kawase_blur_strength l2).1.iterations := by
  have hs : ∀ i, i < 20 → (blur_strength_values.getD i default).strength = (i : Int) + 1 := by
    decide
  have hm : ∀ i, i < 20 → ∀ j, j < 20 → i ≤ j →
      (blur_strength_values.getD i default).expand ≤
        (blur_strength_values.getD j default).expand ∧
      (blur_strength_values.getD i default).iterations ≤
        (blur_strength_values.getD j default).iterations := by
    decide
  have h1 : ¬ (l1 < 1 ∨ 20 < l1) := by omega
  have h2 : ¬ (l2 < 1 ∨ 20 < l2) := by omega
  have hi1 : (l1 - 1).toNat < 20 := by omega
  have hi2 : (l2 - 1).toNat < 20 := by omega
  rw [parse_kawase_blur_strength, if_neg h1, parse_kawase_blur_strength, if_neg h2]
  refine ⟨?_, (hm _ hi1 _ hi2 (by omega)).1, (hm _ hi1 _ hi2 (by omega)).2⟩
  rw [hs _ hi1]
  omega

/-- Witness for C9: levels 3 and 17. -/
theorem blur_strength_table_monotone_witness :
    (parse_kawase_blur_strength 3).1.strength = 3 ∧
    (parse_kawase_blur_strength 3).1.expand ≤ (parse_kawase_blur_strength 17).1.expand ∧
    (parse_kawase_blur_strength 3).1.iterations ≤ (parse_kawase_blur_strength 17).1.iterations :=
  blur_strength_table_monotone 3 17 (by decide) (by decide) (by decide)

/-- Claim C4: parse_vsync returns false exactly for the four negative
tokens under case-sensitive comparison; NO and False, in particular,
return true. -/
theorem parse_vsync_exact_negative_tokens :
    (∀ s : String,
      parse_vsync s = false ↔ (s = "no" ∨ s = "none" ∨ s = "false" ∨ s = "nah")) ∧
    parse_vsync "NO" = true ∧ parse_vsync "False" = true ∧
    parse_vsync "no" = false ∧ parse_vsync "none" = false ∧
    parse_vsync "false" = false ∧ parse_vsync "nah" = false := by
  refine ⟨?_, by decide, by decide, by decide, by decide, by decide, by decide⟩
  intro s
  rw [parse_vsync]
  split
  · rename_i h
    simp only [Bool.or_eq_true, beq_iff_eq] at h
    exact iff_of_true rfl (by tauto)
  · rename_i h
    simp only [Bool.or_eq_true, beq_iff_eq] at h
    exact iff_of_false (by simp) (by tauto)

/-- Claim C3: every canonical backend name, matched case-insensitively,
parses to the enum value at its position in BACKEND_STRS; the two legacy
misspellings parse to BKEND_XR_GLX_HYBRID with a deprecation warning; every
other string parses to the sentinel NUM_BKEND with an error diagnostic. -/
theorem parse_backend_names :
    (∀ (s : String) (j : Nat), j < BACKEND_STRS.length →
      strcaseeq s (BACKEND_STRS.getD j "") = true → parse_backend s = (j, Diag.quiet)) ∧
    parse_backend "xr_glx_hybird" = (BKEND_XR_GLX_HYBRID, Diag.warn) ∧
    parse_backend "xr-glx-hybrid" = (BKEND_XR_GLX_HYBRID, Diag.warn) ∧
    (∀ s : String, (∀ c ∈ BACKEND_STRS, strcaseeq s c = false) →
      strcaseeq s "xr_glx_hybird" = false → strcaseeq s "xr-glx-hybrid" = false →
      parse_backend s = (NUM_BKEND, Diag.error)) := by
  refine ⟨?_, by decide, by decide, ?_⟩
  · intro s j h hc
    have hl : strLower s = strLower (BACKEND_STRS.getD j "") := (strcaseeq_iff _ _).mp hc
    have h4 : j < 4 := by simpa [BACKEND_STRS] using h
    interval_cases j <;>
      simp only [BACKEND_STRS, List.getD] at hl <;>
      simp [parse_backend, backend_search, strcaseeq_congr s _ hl, BACKEND_STRS] <;>
      decide
  · intro s h1 h2 h3
    simp only [BACKEND_STRS, List.mem_cons, List.not_mem_nil, or_false,
      forall_eq_or_imp, forall_eq] at h1
    simp [parse_backend, backend_search, BACKEND_STRS, h1.1, h1.2.1, h1.2.2.1, h1.2.2.2,
      h2, h3]

/-- Witness for C3: the canonical name glx spelt GLX parses to enum value 1
quietly; an unknown name parses to the sentinel with an error. -/
theorem parse_backend_names_witness :
    parse_backend "GLX" = (1, Diag.quiet) ∧
    parse_backend "wayland" = (NUM_BKEND, Diag.error) :=
  ⟨parse_backend_names.1 "GLX" 1 (by decide) (by decide),
   parse_backend_names.2.2.2 "wayland" (by decide) (by decide) (by decide)⟩

/-- Claim C10: the two legacy misspellings are matched case-insensitively
as well, returning BKEND_XR_GLX_HYBRID with a warning for every letter-case
variant; and the result of parse_backend is always at most NUM_BKEND. -/
theorem parse_backend_legacy_case_insensitive :
    (∀ s : String, strcaseeq s "xr_glx_hybird" = true →
      parse_backend s = (BKEND_XR_GLX_HYBRID, Diag.warn)) ∧
    (∀ s : String, strcaseeq s "xr-glx-hybrid" = true →
      parse_backend s = (BKEND_XR_GLX_HYBRID, Diag.warn)) ∧
    (∀ s : String, (parse_backend s).1 ≤ NUM_BKEND) := by
  refine ⟨?_, ?_, ?_⟩
  · intro s h
    have hl : strLower s = strLower "xr_glx_hybird" := (strcaseeq_iff _ _).mp h
    simp [parse_backend, backend_search, strcaseeq_congr s _ hl, BACKEND_STRS]
    decide
  · intro s h
    have hl : strLower s = strLower "xr-glx-hybrid" := (strcaseeq_iff _ _).mp h
    simp [parse_backend, backend_search, strcaseeq_congr s _ hl, BACKEND_STRS]
    decide
  · intro s
    rcases hs : backend_search s BACKEND_STRS 0 with _ | i
    · rw [parse_backend, hs]
      split_ifs <;> simp [NUM_BKEND, BKEND_XR_GLX_HYBRID]
    · rw [parse_backend, hs]
      have := backend_search_lt s BACKEND_STRS 0 i hs
      simp only [BACKEND_STRS, List.length_cons, List.length_nil] at this
      simp only [NUM_BKEND]
      omega

/-- Witness for C10: the all-uppercase variant of the dashed misspelling
still lands on the hybrid backend with a warning. -/
theorem parse_backend_legacy_case_insensitive_witness :
    strcaseeq "XR-GLX-HYBRID" "xr-glx-hybrid" = true ∧
    parse_backend "XR-GLX-HYBRID" = (BKEND_XR_GLX_HYBRID, Diag.warn) :=
  ⟨by decide, parse_backend_legacy_case_insensitive.2.1 "XR-GLX-HYBRID" (by decide)⟩

/-- Claim C1: for every window type (index i) and every overridable field,
set_default_winopts leaves the field untouched when the mask bit is set and
assigns the computed default when it is unset: shadow and fade take the
global gates, the numeric overrides take their fixed no-override sentinels,
focus / full_shadow / redir_ignore take false; in particular a per-type
opacity explicitly set to 1/2 stays 1/2 whatever the gates. -/
theorem set_default_winopts_respects_mask (se fe : Bool)
    (mask : List win_option_mask) (opts : List win_option) (i : Nat)
    (h1 : i < mask.length) (h2 : i < opts.length) :
    (((mask.getD i default).shadow = true →
        ((set_default_winopts opts mask se fe).getD i default).shadow =
          (opts.getD i default).shadow) ∧
      ((mask.getD i default).shadow = false →
        ((set_default_winopts opts mask se fe).getD i default).shadow = se) ∧
      ((mask.getD i default).fade = true →
        ((set_default_winopts opts mask se fe).getD i default).fade =
          (opts.getD i default).fade) ∧
      ((mask.getD i default).fade = false →
        ((set_default_winopts opts mask se fe).getD i default).fade = fe) ∧
      ((mask.getD i default).focus = true →
        ((set_default_winopts opts mask se fe).getD i default).focus =
          (opts.getD i default).focus) ∧
      ((mask.getD i default).focus = false →
        ((set_default_winopts opts mask se fe).getD i default).focus = false) ∧
      ((mask.getD i default).full_shadow = true →
        ((set_default_winopts opts mask se fe).getD i default).full_shadow =
          (opts.getD i default).full_shadow) ∧
      ((mask.getD i default).full_shadow = false →
        ((set_default_winopts opts mask se fe).getD i default).full_shadow = false) ∧
      ((mask.getD i default).redir_ignore = true →
        ((set_default_winopts opts mask se fe).getD i default).redir_ignore =
          (opts.getD i default).redir_ignore) ∧
      ((mask.getD i default).redir_ignore = false →
        ((set_default_winopts opts mask se fe).getD i default).redir_ignore = false) ∧
      ((mask.getD i default).opacity = true →
        ((set_default_winopts opts mask se fe).getD i default).opacity =
          (opts.getD i default).opacity) ∧
      ((mask.getD i default).opacity = false →
        ((set_default_winopts opts mask se fe).getD i default).opacity = OPACITY_UNSET) ∧
      ((mask.getD i default).corner_radius = true →
        ((set_default_winopts opts mask se fe).getD i default).corner_radius =
          (opts.getD i default).corner_radius) ∧
      ((mask.getD i default).corner_radius = false →
        ((set_default_winopts opts mask se fe).getD i default).corner_radius =
          CORNER_RADIUS_UNSET) ∧
      ((mask.getD i default).round_borders = true →
        ((set_default_winopts opts mask se fe).getD i default).round_borders =
          (opts.getD i default).round_borders) ∧
      ((mask.getD i default).round_borders = false →
        ((set_default_winopts opts mask se fe).getD i default).round_borders =
          ROUND_BORDERS_UNSET)) ∧
    ((mask.getD i default).opacity = true → (opts.getD i default).opacity = 1/2 →
      ((set_default_winopts opts mask se fe).getD i default).opacity = 1/2) := by
  rw [set_default_winopts_getD se fe mask opts i h1 h2]
  refine ⟨resolve_winopt_cases se fe _ _, ?_⟩
  intro hm ho
  simp only [resolve_winopt]
  rw [if_pos hm, ho]

/-- Witness for C1: one window type, every mask bit set, per-type opacity
configured to 1/2; resolution keeps it at 1/2. -/
theorem set_default_winopts_respects_mask_witness :
    ((set_default_winopts [wopt_demo] [mask_all] true false).getD 0 default).opacity = 1/2 :=
  (set_default_winopts_respects_mask true false [mask_all] [wopt_demo] 0
    (by decide) (by decide)).2 (by decide) rfl

/-- Claim C5: set_default_winopts is idempotent for a fixed mask and fixed
global gates, and no application modifies a field whose mask bit is set. -/
theorem set_default_winopts_idempotent (se fe : Bool)
    (mask : List win_option_mask) (opts : List win_option) :
    set_default_winopts (set_default_winopts opts mask se fe) mask se fe =
      set_default_winopts opts mask se fe ∧
    ∀ i : Nat, i < mask.length → i < opts.length →
      ((mask.getD i default).shadow = true →
        ((set_default_winopts opts mask se fe).getD i default).shadow =
          (opts.getD i default).shadow) ∧
      ((mask.getD i default).fade = true →
        ((set_default_winopts opts mask se fe).getD i default).fade =
          (opts.getD i default).fade) ∧
      ((mask.getD i default).focus = true →
        ((set_default_winopts opts mask se fe).getD i default).focus =
          (opts.getD i default).focus) ∧
      ((mask.getD i default).full_shadow = true →
        ((set_default_winopts opts mask se fe).getD i default).full_shadow =
          (opts.getD i default).full_shadow) ∧
      ((mask.getD i default).redir_ignore = true →
        ((set_default_winopts opts mask se fe).getD i default).redir_ignore =
          (opts.getD i default).redir_ignore) ∧
      ((mask.getD i default).opacity = true →
        ((set_default_winopts opts mask se fe).getD i default).opacity =
          (opts.getD i default).opacity) ∧
      ((mask.getD i default).corner_radius = true →
        ((set_default_winopts opts mask se fe).getD i default).corner_radius =
          (opts.getD i default).corner_radius) ∧
      ((mask.getD i default).round_borders = true →
        ((set_default_winopts opts mask se fe).getD i default).round_borders =
          (opts.getD i default).round_borders) := by
  refine ⟨set_default_winopts_idem_aux se fe mask opts, ?_⟩
  intro i h1 h2
  rw [set_default_winopts_getD se fe mask opts i h1 h2]
  exact resolve_winopt_masked se fe _ _

/-- Witness for C5: one window type with every mask bit set; resolving
twice equals resolving once, and the masked shadow field is untouched. -/
theorem set_default_winopts_idempotent_witness :
    set_default_winopts (set_default_winopts [wopt_demo] [mask_all] true false)
        [mask_all] true false =
      set_default_winopts [wopt_demo] [mask_all] true false ∧
    ((set_default_winopts [wopt_demo] [mask_all] true false).getD 0 default).shadow =
      ([wopt_demo].getD 0 default).shadow :=
  ⟨(set_default_winopts_idempotent true false [mask_all] [wopt_demo]).1,
   ((set_default_winopts_idempotent true false [mask_all] [wopt_demo]).2 0
      (by decide) (by decide)).1 (by decide)⟩

/-- Claim C6: appending to a condition list is atomic on failure:
condlst_add with an invalid pattern returns failure with the list
unchanged; parse_rule_opacity returns failure with the list unchanged on a
parse failure in either the pattern part or the opacity part of its
"pattern : opacity" input; and N consecutive successful condlst_add calls
append exactly N nodes in first-parsed-first order. -/
theorem condlst_add_atomic :
    (∀ (c2 : String → Option String) (lst : List cond_node) (pat : String),
      c2 pat = none → condlst_add c2 lst pat = (lst, false)) ∧
    (∀ (c2 : String → Option String) (pop : String → Option ℚ)
        (lst : List cond_node) (src : String) (p1 p2 : List Char),
      break_colon src.data = some (p1, p2) → c2 ⟨p1⟩ = none →
      parse_rule_opacity c2 pop lst src = (lst, false)) ∧
    (∀ (c2 : String → Option String) (pop : String → Option ℚ)
        (lst : List cond_node) (src : String) (p1 p2 : List Char),
      break_colon src.data = some (p1, p2) → pop ⟨p2⟩ = none →
      parse_rule_opacity c2 pop lst src = (lst, false)) ∧
    (∀ (c2 : String → Option String) (lst : List cond_node) (pats : List String),
      (∀ p ∈ pats, (c2 p).isSome = true) →
      condlst_add_all c2 lst pats =
        lst ++ pats.filterMap (fun p => (c2 p).map (fun q => ⟨q, none⟩)) ∧
      (condlst_add_all c2 lst pats).length = lst.length + pats.length) := by
  refine ⟨?_, ?_, ?_, ?_⟩
  · intro c2 lst pat h
    simp [condlst_add, h]
  · intro c2 pop lst src p1 p2 hsplit hc
    rw [parse_rule_opacity, hsplit]
    rcases hp : pop ⟨p2⟩ with _ | o <;> simp [hc, hp]
  · intro c2 pop lst src p1 p2 hsplit hp
    rw [parse_rule_opacity, hsplit]
    rcases hc : c2 ⟨p1⟩ with _ | p <;> simp [hc, hp]
  · intro c2 lst pats
    induction pats generalizing lst with
    | nil => intro h; simp [condlst_add_all]
    | cons p ps ih =>
      intro h
      rcases hp : c2 p with _ | q
      · exact absurd (h p (by simp)) (by simp [hp])
      · have hstep : (condlst_add c2 lst p).1 = lst ++ [cond_node.mk q none] := by
          simp [condlst_add, hp]
        have hrest := ih (lst ++ [⟨q, none⟩]) (fun x hx => h x (by simp [hx]))
        have hfold : condlst_add_all c2 lst (p :: ps) =
            condlst_add_all c2 (lst ++ [⟨q, none⟩]) ps := by
          rw [condlst_add_all, List.foldl_cons, hstep]
          rfl
        constructor
        · rw [hfold, hrest.1]
          simp [hp]
        · rw [hfold, hrest.2]
          simp
          omega

/-- Witness for C6: with a grammar rejecting exactly "bad" and an opacity
parser accepting exactly "0.5": adding "bad" fails leaving the empty list
empty; an opacity rule whose pattern part fails and one whose opacity part
fails both leave the list unchanged; three valid adds append exactly three
nodes in order. -/
theorem condlst_add_atomic_witness :
    condlst_add c2_demo [] "bad" = ([], false) ∧
    parse_rule_opacity c2_demo pop_demo [] "bad:0.5" = ([], false) ∧
    parse_rule_opacity c2_demo pop_demo [] "a:9" = ([], false) ∧
    condlst_add_all c2_demo [] ["a", "b", "c"] =
      [] ++ ["a", "b", "c"].filterMap (fun p => (c2_demo p).map (fun q => ⟨q, none⟩)) ∧
    (condlst_add_all c2_demo [] ["a", "b", "c"]).length =
      ([] : List cond_node).length + ["a", "b", "c"].length :=
  ⟨condlst_add_atomic.1 c2_demo [] "bad" (by decide),
   condlst_add_atomic.2.1 c2_demo pop_demo [] "bad:0.5" ("bad".data) ("0.5".data)
     (by decide) (by decide),
   condlst_add_atomic.2.2.1 c2_demo pop_demo [] "a:9" ("a".data) ("9".data)
     (by decide) (by decide),
   (condlst_add_atomic.2.2.2 c2_demo [] ["a", "b", "c"] (by decide)).1,
   (condlst_add_atomic.2.2.2 c2_demo [] ["a", "b", "c"] (by decide)).2⟩

/-- Claim C7: the config loader is field-level recoverable: a malformed
key behaves exactly as if the line were absent (so the loader does not
abort and that field keeps its prior value), every well-parsed key among
distinct keys is applied, and when the file-backed format is unavailable in
the build the loader is a no-op returning null. -/
theorem parse_config_recoverable :
    (∀ (st : Nat → Int) (p : Option String) (pre post : List config_entry) (k : Nat),
      parse_config true st p (pre ++ ⟨k, none⟩ :: post) = parse_config true st p (pre ++ post)) ∧
    (∀ (st : Nat → Int) (p : Option String) (entries : List config_entry) (k : Nat),
      (∀ e ∈ entries, e.key ≠ k) → (parse_config true st p entries).1 k = st k) ∧
    (∀ (st : Nat → Int) (p : Option String) (entries : List config_entry) (k : Nat) (v : Int),
      (entries.map config_entry.key).Nodup → (⟨k, some v⟩ : config_entry) ∈ entries →
      (parse_config true st p entries).1 k = v) ∧
    (∀ (st : Nat → Int) (p : Option String) (entries : List config_entry),
      parse_config false st p entries = (st, none)) ∧
    (∀ (st : Nat → Int) (p : Option String) (entries : List config_entry),
      (parse_config true st p entries).2 = p) := by
  refine ⟨?_, ?_, ?_, ?_, ?_⟩
  · intro st p pre post k
    simp only [parse_config, if_pos, parse_config_libconfig, List.foldl_append,
      List.foldl_cons]
    rfl
  · intro st p entries k h
    simp only [parse_config, if_pos]
    exact foldl_apply_config_ne k entries st h
  · intro st p entries k v
    simp only [parse_config, if_pos]
    induction entries generalizing st with
    | nil => intro _ hmem; simp at hmem
    | cons e rest ih =>
      intro hnod hmem
      rw [parse_config_libconfig, List.foldl_cons]
      rcases List.mem_cons.mp hmem with he | he
      · have hkey : e.key = k := by rw [← he]
        have hval : e.val = some v := by rw [← he]
        have hrest : ∀ x ∈ rest, x.key ≠ k := by
          intro x hx hxk
          have hnotin := (List.nodup_cons.mp hnod).1
          exact hnotin (by
            rw [hkey] at hnotin ⊢
            exact (List.mem_map.mpr ⟨x, hx, hxk⟩))
        have := foldl_apply_config_ne k rest (apply_config_entry st e) hrest
        rw [parse_config_libconfig] at this
        rw [this, apply_config_entry, hval, hkey]
        simp
      · have hnod2 : (rest.map config_entry.key).Nodup := (List.nodup_cons.mp hnod).2
        have := ih (apply_config_entry st e) hnod2 he
        rw [parse_config_libconfig] at this
        exact this
  · intro st p entries
    simp [parse_config]
  · intro st p entries
    simp [parse_config]

/-- Witness for C7: a three-line file whose middle key 1 is malformed:
the loader yields the same snapshot as without that line, key 1 keeps its
prior value 0, the valid keys 0 and 2 are applied, and with the file
backend compiled out the loader is a no-op returning null. -/
theorem parse_config_recoverable_witness :
    parse_config true st_zero (some "picom.conf")
        [⟨0, some 1⟩, ⟨1, none⟩, ⟨2, some 3⟩] =
      parse_config true st_zero (some "picom.conf") [⟨0, some 1⟩, ⟨2, some 3⟩] ∧
    (parse_config true st_zero (some "picom.conf")
        [⟨0, some 1⟩, ⟨1, none⟩, ⟨2, some 3⟩]).1 1 = st_zero 1 ∧
    (parse_config true st_zero (some "picom.conf")
        [⟨0, some 1⟩, ⟨1, none⟩, ⟨2, some 3⟩]).1 2 = 3 ∧
    parse_config false st_zero (some "picom.conf")
        [⟨0, some 1⟩, ⟨1, none⟩, ⟨2, some 3⟩] = (st_zero, none) := by
  have hskip := parse_config_recoverable.1 st_zero (some "picom.conf")
    [⟨0, some 1⟩] [⟨2, some 3⟩] 1
  refine ⟨hskip, ?_, ?_, ?_⟩
  · rw [show ([⟨0, some 1⟩, ⟨1, none⟩, ⟨2, some 3⟩] : List config_entry) =
      [⟨0, some 1⟩] ++ ⟨1, none⟩ :: [⟨2, some 3⟩] from rfl, hskip]
    exact parse_config_recoverable.2.1 st_zero (some "picom.conf")
      [⟨0, some 1⟩, ⟨2, some 3⟩] 1 (by decide)
  · exact parse_config_recoverable.2.2.1 st_zero (some "picom.conf")
      [⟨0, some 1⟩, ⟨1, none⟩, ⟨2, some 3⟩] 2 3 (by decide) (by decide)
  · exact parse_config_recoverable.2.2.2.1 st_zero (some "picom.conf")
      [⟨0, some 1⟩, ⟨1, none⟩, ⟨2, some 3⟩]

end Picom
